import Mathlib

/-!
Shallow embedding of four Salt plugin modules
(`salt/states/mssql_database.py`, `salt/states/blockdev.py`,
`salt/modules/cimc.py`, `salt/modules/mattermost.py`) and proofs about
their declarative-state and parameter-validation behaviour.

External calls (`__salt__`, `__opts__`, `__proxy__`, HTTP queries) are
modelled by environment records holding the values those calls return;
each embedded function additionally reports which external apply calls
it issued.  An uncaught Python exception is modelled as `Except.error`.
-/

namespace Salt

/-- A Python value as it appears in these modules: `None`, bools, ints,
strings, lists and (string-keyed) dicts. -/
inductive Val where
  | none
  | bool (b : Bool)
  | int (n : Int)
  | str (s : String)
  | list (xs : List Val)
  | dict (kvs : List (String × Val))
deriving Repr, Inhabited

/-- Python truthiness of a value. -/
def truthy : Val → Bool
  | .none => false
  | .bool b => b
  | .int n => n != 0
  | .str s => s ≠ ""
  | .list xs => !xs.isEmpty
  | .dict kvs => !kvs.isEmpty

mutual
/-- Python `repr` of a value (as used by `str` on containers). -/
def pyRepr : Val → String
  | .none => "None"
  | .bool true => "True"
  | .bool false => "False"
  | .int n => toString n
  | .str s => "'" ++ s ++ "'"
  | .list xs => "[" ++ pyReprList xs ++ "]"
  | .dict kvs => "\x7b" ++ pyReprKVs kvs ++ "\x7d"

/-- Comma-separated `repr`s of list elements. -/
def pyReprList : List Val → String
  | [] => ""
  | [x] => pyRepr x
  | x :: xs => pyRepr x ++ ", " ++ pyReprList xs

/-- Comma-separated `repr`s of dict items. -/
def pyReprKVs : List (String × Val) → String
  | [] => ""
  | [kv] => "'" ++ kv.1 ++ "': " ++ pyRepr kv.2
  | kv :: kvs => "'" ++ kv.1 ++ "': " ++ pyRepr kv.2 ++ ", " ++ pyReprKVs kvs
end

/-- Python `str` of a value (identity on strings, `repr`-like otherwise). -/
def pyStr : Val → String
  | .str s => s
  | v => pyRepr v

/-- Python `not v` as a value. -/
def pyNot (v : Val) : Val := Val.bool (!truthy v)

/-- Python `v is True` (identity with the `True` singleton). -/
def isPyTrue : Val → Bool
  | .bool true => true
  | _ => false

/-- Lookup in a string-keyed assoc list (Python dict access). -/
def dictGet0 (kvs : List (String × Val)) (k : String) : Option Val :=
  (kvs.find? (fun kv => kv.1 = k)).map (·.2)

mutual
/-- Python `==` on values: numeric cross-type equality between bools and
ints (`True == 1`), element-wise on lists, key/value-wise on dicts. -/
def pyEq : Val → Val → Bool
  | .none, .none => true
  | .bool a, .bool b => a == b
  | .bool a, .int n => (if a then (1 : Int) else 0) == n
  | .int n, .bool b => n == (if b then (1 : Int) else 0)
  | .int a, .int b => a == b
  | .str a, .str b => a == b
  | .list xs, .list ys => pyEqList xs ys
  | .dict xs, .dict ys => xs.length == ys.length && pyEqKVs xs ys
  | _, _ => false

/-- Element-wise Python `==` on lists. -/
def pyEqList : List Val → List Val → Bool
  | [], [] => true
  | x :: xs, y :: ys => pyEq x y && pyEqList xs ys
  | _, _ => false

/-- Every key of the first dict maps to a `==`-equal value in the
second (with equal lengths and unique keys this is Python dict `==`). -/
def pyEqKVs : List (String × Val) → List (String × Val) → Bool
  | [], _ => true
  | kv :: xs, ys =>
    (match dictGet0 ys kv.1 with
     | some w => pyEq kv.2 w
     | Option.none => false) && pyEqKVs xs ys
end

/-- Python `a or b` (returns `a` when truthy, else `b`). -/
def pyOr (a b : Val) : Val := if truthy a then a else b

/-- Python `v[k]` with a string key; `Option.none` models the raised
`KeyError`/`TypeError` when `v` is not a dict holding `k`. -/
def subscriptStr (v : Val) (k : String) : Option Val :=
  match v with
  | .dict kvs => dictGet0 kvs k
  | _ => Option.none

/-- Python `v[i]` with a non-negative int index (lists index into
elements, strings yield one-character strings). -/
def subscriptNat (v : Val) (i : Nat) : Option Val :=
  match v with
  | .list xs => xs.get? i
  | .str s => (s.toList.get? i).map (fun c => Val.str (String.mk [c]))
  | _ => Option.none

/-- `true` exactly on string values. -/
def isStrVal : Val → Bool
  | .str _ => true
  | _ => false

/-- The element list of a `Val.list`, `[]` otherwise. -/
def listElems : Val → List Val
  | .list xs => xs
  | _ => []

/-- A state function's return dict: `name`, `changes`, `result`
(`Option.none` models Python `None`), `comment`. -/
structure StateRet where
  name : String
  changes : List (String × String)
  result : Option Bool
  comment : String
deriving Repr, DecidableEq

/-! ### `salt/states/mssql_database.py` -/

mutual
/-- `mssql_database._normalize_options`: dicts map to their `"k=v"`
strings, lists that are empty or start with a string are returned
unchanged, lists starting with a dict are flattened recursively, and
every other input yields the empty list. -/
def _normalize_options : Val → Val
  | .dict kvs => .list (kvs.map (fun kv => .str (kv.1 ++ "=" ++ pyStr kv.2)))
  | .list [] => .list []
  | .list (Val.str s :: xs) => .list (Val.str s :: xs)
  | .list (Val.dict kvs :: xs) => .list (normFlatten (Val.dict kvs :: xs))
  | .list (_ :: _) => .list []
  | _ => .list []

/-- The list comprehension `[o for d in options for o in
_normalize_options(d)]`. -/
def normFlatten : List Val → List Val
  | [] => []
  | d :: ds => listElems (_normalize_options d) ++ normFlatten ds
end

/-- Environment for `mssql_database.present`: the truthiness of
`mssql.db_exists(name)`, the `__opts__["test"]` flag, and the value
`mssql.db_create` would return if called. -/
structure PresentEnv where
  db_exists : Bool
  test : Bool
  db_create : Val
deriving Repr

/-- Outcome of `mssql_database.present`: the returned dict, plus the
`(containment, new_database_options)` arguments of the `mssql.db_create`
call when one was issued. -/
structure PresentOut where
  ret : StateRet
  create_call : Option (String × Val)
deriving Repr

/-- `mssql_database.present`. -/
def present (name : String) (containment : String) (options : Val)
    (env : PresentEnv) : PresentOut :=
  if env.db_exists then
    { ret := { name := name, changes := [], result := some true,
               comment := "Database " ++ name ++
                 " is already present (Not going to try to set its options)" },
      create_call := Option.none }
  else if env.test then
    { ret := { name := name, changes := [], result := Option.none,
               comment := "Database " ++ name ++ " is set to be added" },
      create_call := Option.none }
  else if !(isPyTrue env.db_create) then
    { ret := { name := name, changes := [], result := some false,
               comment := "Database " ++ name ++ " failed to be created: " ++
                 pyStr env.db_create },
      create_call := some (containment, _normalize_options options) }
  else
    { ret := { name := name, changes := [(name, "Present")], result := some true,
               comment := "Database " ++ name ++ " has been added" },
      create_call := some (containment, _normalize_options options) }

/-- Environment for `mssql_database.absent`: the truthiness of
`mssql.db_exists(name)`, the `__opts__["test"]` flag, and the value
`mssql.db_remove` would return if called. -/
structure AbsentEnv where
  db_exists : Bool
  test : Bool
  db_remove : Val
deriving Repr

/-- Outcome of `mssql_database.absent`: the returned dict plus whether
`mssql.db_remove` was called. -/
structure AbsentOut where
  ret : StateRet
  remove_called : Bool
deriving Repr, DecidableEq

/-- `mssql_database.absent`. -/
def absent (name : String) (env : AbsentEnv) : AbsentOut :=
  if !env.db_exists then
    { ret := { name := name, changes := [], result := some true,
               comment := "Database " ++ name ++ " is not present" },
      remove_called := false }
  else if env.test then
    { ret := { name := name, changes := [], result := Option.none,
               comment := "Database " ++ name ++ " is set to be removed" },
      remove_called := false }
  else if truthy env.db_remove then
    { ret := { name := name, changes := [(name, "Absent")], result := some true,
               comment := "Database " ++ name ++ " has been removed" },
      remove_called := true }
  else
    { ret := { name := name, changes := [], result := some false,
               comment := "Database " ++ name ++ " failed to be removed" },
      remove_called := true }

/-! ### `salt/states/blockdev.py` -/

/-- `blockdev.tuned`'s `kwarg_map` from declared option names to
`disk.dump` switches. -/
def kwarg_map : List (String × String) :=
  [("read-ahead", "getra"), ("filesystem-read-ahead", "getfra"),
   ("read-only", "getro"), ("read-write", "getro")]

/-- Assignment `m[k] = v` on a string-keyed dict kept as an assoc
list (overwrite in place, else append). -/
def setKV (m : List (String × String)) (k v : String) :
    List (String × String) :=
  if m.any (fun kv => kv.1 = k) then
    m.map (fun kv => if kv.1 = k then (k, v) else kv)
  else m ++ [(k, v)]

/-- `isinstance(v, bool)`. -/
def isBoolVal : Val → Bool
  | .bool _ => true
  | _ => false

/-- One changeset entry of `blockdev.tuned`: the `old`/`new` values for
`key`, normalized to bools when the declared value is a bool and negated
for the inverted `read-write` option, rendered with Python `str`. -/
def tunedEntry (key : String) (declared curV chgV : Val) : String :=
  let old := if isBoolVal declared then Val.bool (pyEq curV (Val.str "1")) else curV
  let new := if isBoolVal declared then Val.bool (pyEq chgV (Val.str "1")) else chgV
  let old := if key = "read-write" then pyNot old else old
  let new := if key = "read-write" then pyNot new else new
  "Changed from " ++ pyStr old ++ " to " ++ pyStr new

/-- The `for key in kwargs` changeset loop of `blockdev.tuned`;
`Except.error` models the uncaught `KeyError`/`TypeError` raised when
subscripting `current`/`changes` fails. -/
def tunedLoop (current changes : Val) :
    List (String × Val) → List (String × String) →
    Except String (List (String × String))
  | [], acc => .ok acc
  | (key, declared) :: rest, acc =>
    match (kwarg_map.find? (fun kv => kv.1 = key)).map (·.2) with
    | Option.none => tunedLoop current changes rest acc
    | some switch =>
      match subscriptStr current switch with
      | Option.none => .error ("subscript failed: " ++ switch)
      | some curV =>
        match subscriptStr changes switch with
        | Option.none => .error ("subscript failed: " ++ switch)
        | some chgV =>
          if !(pyEq curV chgV) then
            tunedLoop current changes rest
              (setKV acc key (tunedEntry key declared curV chgV))
          else tunedLoop current changes rest acc

/-- Environment for `blockdev.tuned`: the truthiness of the
`__salt__["file.is_blkdev"]` entry (a function object, hence always
truthy at runtime), the `__opts__["test"]` flag, and the values
`disk.dump(name)` and `disk.tune(name, **kwargs)` return. -/
structure TunedEnv where
  is_blkdev : Bool
  test : Bool
  dump : Val
  tune : Val
deriving Repr

/-- Outcome of `blockdev.tuned`: the returned dict plus whether
`disk.tune` was called. -/
structure TunedOut where
  ret : StateRet
  tune_called : Bool
deriving Repr, DecidableEq

/-- `blockdev.tuned`. -/
def tuned (name : String) (kwargs : List (String × Val)) (env : TunedEnv) :
    Except String TunedOut :=
  let ret0 : StateRet := { changes := [], comment := "", name := name, result := some true }
  if !env.is_blkdev then
    .ok { ret := { ret0 with
            comment := "Changes to " ++ name ++ " cannot be applied. Not a block device. " },
          tune_called := false }
  else if env.test then
    .ok { ret := { ret0 with
            comment := "Changes to " ++ name ++ " will be applied ",
            result := Option.none },
          tune_called := false }
  else
    match tunedLoop env.dump env.tune kwargs [] with
    | .error e => .error e
    | .ok changeset =>
      if truthy env.tune then
        if !changeset.isEmpty then
          .ok { ret := { ret0 with
                  comment := "Block device " ++ name ++ " successfully modified ",
                  changes := changeset },
                tune_called := true }
        else
          .ok { ret := { ret0 with
                  comment := "Block device " ++ name ++ " already in correct state" },
                tune_called := true }
      else
        .ok { ret := { ret0 with
                comment := "Failed to modify block device " ++ name,
                result := some false },
              tune_called := true }

/-- Environment for `blockdev.formatted`: whether `os.path.exists(name)`
holds, the truthiness of `salt.utils.path.which("mkfs." + fs_type)`, the
`__opts__["test"]` flag, and the successive `_checkblk(name)` results
(call 0 is the pre-format check; calls 1.. happen inside the retry
loop).  `_checkblk` itself returns `""` for a falsy `blkid` output and
the output unchanged otherwise, so a `String`-valued oracle models it
exactly. -/
structure FormattedEnv where
  path_exists : Bool
  which_mkfs : Bool
  test : Bool
  checkblk : Nat → String

/-- The bounded `for i in range(10)` re-check loop of
`blockdev.formatted`: succeeds when a check returns `fs_type`, retries
(after a sleep) while it returns `""`, and gives up on any other
value or after 10 attempts. -/
def formatWait (fs_type : String) (chk : Nat → String) :
    Nat → Nat → Bool
  | _, 0 => false
  | i, remaining + 1 =>
    let current_fs := chk i
    if current_fs = fs_type then true
    else if current_fs = "" then formatWait fs_type chk (i + 1) remaining
    else false

/-- `blockdev.formatted`; the second component records whether
`disk.format` was called. -/
def formatted (name fs_type : String) (env : FormattedEnv) :
    StateRet × Bool :=
  let ret0 : StateRet :=
    { changes := [], comment := name ++ " already formatted with " ++ fs_type,
      name := name, result := some false }
  if !env.path_exists then
    ({ ret0 with comment := name ++ " does not exist" }, false)
  else if env.checkblk 0 = fs_type then
    ({ ret0 with result := some true }, false)
  else if !env.which_mkfs then
    ({ ret0 with comment := "Invalid fs_type: " ++ fs_type, result := some false }, false)
  else if env.test then
    ({ ret0 with comment := "Changes to " ++ name ++ " will be applied ",
                 result := Option.none }, false)
  else if formatWait fs_type env.checkblk 1 10 then
    ({ ret0 with comment := name ++ " has been formatted with " ++ fs_type,
                 changes := [("new", fs_type), ("old", fs_type)],
                 result := some true }, true)
  else
    ({ ret0 with comment := "Failed to format " ++ name, result := some false }, true)

/-! ### `salt/modules/cimc.py` -/

/-- A call to the proxy's `cimc.set_config_modify` entry point: the
device object path and the XML configuration fragment (the third,
constant `False` argument is omitted). -/
structure ProxyCall where
  dn : String
  inconfig : String
deriving Repr, DecidableEq

/-- `cimc.activate_backup_image`; the Python default is `reset=False`
and the check is `reset is True`. -/
def activate_backup_image (reset : Val) : ProxyCall :=
  let dn := "sys/rack-unit-1/mgmt/fw-boot-def/bootunit-combined"
  let r := if isPyTrue reset then "yes" else "no"
  { dn := dn,
    inconfig := "<firmwareBootUnit dn='sys/rack-unit-1/mgmt/fw-boot-def/bootunit-combined'\n    adminState='trigger' image='backup' resetOnActivate='" ++ r ++ "' />" }

/-- `cimc.create_user`: validates the four required parameters (raising
a `CommandExecutionError`, modelled as `Except.error`, before any proxy
call) and otherwise issues the user-creation XML. -/
def create_user (uid username password priv : Val) :
    Except String ProxyCall :=
  if !truthy uid then .error "The user ID must be specified."
  else if !truthy username then .error "The username must be specified."
  else if !truthy password then .error "The password must be specified."
  else if !truthy priv then .error "The privilege level must be specified."
  else
    .ok { dn := "sys/user-ext/user-" ++ pyStr uid,
          inconfig := "<aaaUser id=\"" ++ pyStr uid ++
            "\" accountStatus=\"active\" name=\"" ++ pyStr username ++
            "\" priv=\"" ++ pyStr priv ++ "\"\n    pwd=\"" ++ pyStr password ++
            "\"  dn=\"sys/user-ext/user-" ++ pyStr uid ++ "\"/>" }

/-- The eight admissible logging severities of
`cimc.set_logging_levels`. -/
def logging_options : List String :=
  ["emergency", "alert", "critical", "error", "warning", "notice",
   "informational", "debug"]

/-- `cimc.set_logging_levels` (the `local` parameter is called `locl`
because `local` is a Lean keyword): each provided severity is validated
against `logging_options` (Python `in` uses `==`) before the proxy call
is issued. -/
def set_logging_levels (remote locl : Val) : Except String ProxyCall := do
  let mut query := ""
  if truthy remote then
    if logging_options.any (fun o => pyEq remote (Val.str o)) then
      query := query ++ " remoteSeverity=\"" ++ pyStr remote ++ "\""
    else
      throw "Remote Severity option is not valid."
  if truthy locl then
    if logging_options.any (fun o => pyEq locl (Val.str o)) then
      query := query ++ " localSeverity=\"" ++ pyStr locl ++ "\""
    else
      throw "Local Severity option is not valid."
  return { dn := "sys/svc-ext/syslog",
           inconfig := "<commSyslog dn=\"sys/svc-ext/syslog\"" ++ query ++ " ></commSyslog>" }

/-- The subscript chain `ret["outConfigs"]["mgmtIf"][0]["hostname"]` of
`cimc.get_hostname`; `Option.none` models any raised exception along
the chain. -/
def extractHostname (resp : Val) : Option Val := do
  let a ← subscriptStr resp "outConfigs"
  let b ← subscriptStr a "mgmtIf"
  let c ← subscriptNat b 0
  subscriptStr c "hostname"

/-- `cimc.get_hostname` applied to the proxy's
`get_config_resolver_class("mgmtIf", True)` response: the broad
`except Exception` substitutes the fixed fallback string. -/
def get_hostname (resp : Val) : Val :=
  match extractHostname resp with
  | some v => v
  | Option.none => Val.str "Unable to retrieve hostname"

/-! ### `salt/modules/mattermost.py` -/

/-- The `config.get` values the mattermost helpers read: for each
setting, the `mattermost.x` and `mattermost:x` spellings. -/
structure MmConfig where
  hook : Val
  hook2 : Val
  api_url : Val
  api_url2 : Val
  channel : Val
  channel2 : Val
  username : Val
  username2 : Val

/-- `mattermost._get_hook`: raises `SaltInvocationError` when neither
config spelling yields a truthy hook. -/
def _get_hook (cfg : MmConfig) : Except String Val :=
  let hook := pyOr cfg.hook cfg.hook2
  if !truthy hook then .error "No Mattermost Hook found" else .ok hook

/-- `mattermost._get_api_url`: raises `SaltInvocationError` when neither
config spelling yields a truthy api url. -/
def _get_api_url (cfg : MmConfig) : Except String Val :=
  let api_url := pyOr cfg.api_url cfg.api_url2
  if !truthy api_url then .error "No Mattermost API URL found" else .ok api_url

/-- `mattermost._get_channel` (never raises). -/
def _get_channel (cfg : MmConfig) : Val := pyOr cfg.channel cfg.channel2

/-- `mattermost._get_username` (never raises). -/
def _get_username (cfg : MmConfig) : Val := pyOr cfg.username cfg.username2

/-- The one `salt.utils.mattermost.query` call `post_message` issues:
endpoint, hook, and the `parameters` dict that is JSON-serialized into
the `payload=...` form body. -/
structure QueryCall where
  api_url : Val
  hook : Val
  payload : List (String × Val)
deriving Repr

/-- Outcome of `mattermost.post_message`: the query call it issued and
the returned `bool(result)`. -/
structure PostOut where
  call : QueryCall
  result : Bool
deriving Repr

/-- `mattermost.post_message`: resolves api url/hook/username/channel
from arguments or config, builds the `parameters` dict (adding
`channel`/`username` only when truthy and wrapping the message in
triple-backtick code-block delimiters) and issues the query.  A missing
message is only logged; `Except.error` covers the raising config
helpers and the `TypeError` from concatenating a non-string message. -/
def post_message (message channel username api_url hook : Val)
    (cfg : MmConfig) (queryResult : Val) : Except String PostOut := do
  let api_url ← if !truthy api_url then _get_api_url cfg else pure api_url
  let hook ← if !truthy hook then _get_hook cfg else pure hook
  let username := if !truthy username then _get_username cfg else username
  let channel := if !truthy channel then _get_channel cfg else channel
  let params0 : List (String × Val) := []
  let params1 := if truthy channel then params0 ++ [("channel", channel)] else params0
  let params2 := if truthy username then params1 ++ [("username", username)] else params1
  let text ← match message with
    | Val.str s => pure (Val.str ("```" ++ s ++ "```"))
    | _ => throw "TypeError: can only concatenate str"
  let params := params2 ++ [("text", text)]
  return { call := { api_url := api_url, hook := hook, payload := params },
           result := truthy queryResult }

/-! ## Claims -/

/-- C1: for `mssql_database.present`, `mssql_database.absent` and
`blockdev.formatted`, when the externally-read current state already
equals the declared state the function returns `result=true` with an
empty `changes` mapping and without calling the apply function
(`mssql.db_create`, `mssql.db_remove`, `disk.format`); hence a second
call with no external state change between calls reports no changes. -/
theorem C1_unchanged_state_no_apply
    (name containment fs_type : String) (options : Val)
    (penv : PresentEnv) (aenv : AbsentEnv) (fenv : FormattedEnv)
    (hp : penv.db_exists = true)
    (ha : aenv.db_exists = false)
    (hf1 : fenv.path_exists = true) (hf2 : fenv.checkblk 0 = fs_type) :
    ((present name containment options penv).ret.result = some true ∧
     (present name containment options penv).ret.changes = [] ∧
     (present name containment options penv).create_call = Option.none) ∧
    ((absent name aenv).ret.result = some true ∧
     (absent name aenv).ret.changes = [] ∧
     (absent name aenv).remove_called = false) ∧
    ((formatted name fs_type fenv).1.result = some true ∧
     (formatted name fs_type fenv).1.changes = [] ∧
     (formatted name fs_type fenv).2 = false) := by
  refine ⟨⟨?_, ?_, ?_⟩, ⟨?_, ?_, ?_⟩, ⟨?_, ?_, ?_⟩⟩ <;>
    simp [present, absent, formatted, hp, ha, hf1, hf2]

/-- Witness for C1 at concrete inputs: an existing database for
`present`, a missing one for `absent`, an already-`ext4` device for
`formatted`. -/
theorem C1_unchanged_state_no_apply_witness :
    ((present "db" "NONE" Val.none ⟨true, false, Val.bool true⟩).ret.result = some true ∧
     (present "db" "NONE" Val.none ⟨true, false, Val.bool true⟩).ret.changes = [] ∧
     (present "db" "NONE" Val.none ⟨true, false, Val.bool true⟩).create_call = Option.none) ∧
    ((absent "db" ⟨false, false, Val.bool true⟩).ret.result = some true ∧
     (absent "db" ⟨false, false, Val.bool true⟩).ret.changes = [] ∧
     (absent "db" ⟨false, false, Val.bool true⟩).remove_called = false) ∧
    ((formatted "/dev/sda" "ext4" ⟨true, true, false, fun _ => "ext4"⟩).1.result = some true ∧
     (formatted "/dev/sda" "ext4" ⟨true, true, false, fun _ => "ext4"⟩).1.changes = [] ∧
     (formatted "/dev/sda" "ext4" ⟨true, true, false, fun _ => "ext4"⟩).2 = false) :=
  C1_unchanged_state_no_apply "db" "NONE" "ext4" Val.none
    ⟨true, false, Val.bool true⟩ ⟨false, false, Val.bool true⟩
    ⟨true, true, false, fun _ => "ext4"⟩ rfl rfl rfl rfl

/-- C2 counterexample: `blockdev.formatted` in dry-run mode
(`test=true`), with an existing device whose current filesystem `ext4`
differs from the declared `xfs` (so a change is needed), returns
`result=false` — not `None` — when no `mkfs.xfs` executable is found,
because the `which` check precedes the `test` check. -/
theorem C2_dry_run_counterexample :
    (formatted "/dev/sda" "xfs"
      { path_exists := true, which_mkfs := false, test := true,
        checkblk := fun _ => "ext4" }).1.result = some false ∧
    (formatted "/dev/sda" "xfs"
      { path_exists := true, which_mkfs := false, test := true,
        checkblk := fun _ => "ext4" }).2 = false := ⟨rfl, rfl⟩

/-- C2 (amended): with `__opts__["test"]` true and a change needed, each
state function returns `result=None` and never calls the apply function
— except that `blockdev.formatted` validates the filesystem type first
and returns `result=false` (still without calling `disk.format`) when
the `mkfs.<fs_type>` executable is missing, so the `None` result there
additionally requires the `which` lookup to succeed. -/
theorem C2_dry_run_no_apply
    (name containment fs_type : String) (options : Val)
    (kwargs : List (String × Val))
    (tenv : TunedEnv) (fenv : FormattedEnv) (penv : PresentEnv) (aenv : AbsentEnv)
    (ht1 : tenv.is_blkdev = true) (ht2 : tenv.test = true)
    (hf1 : fenv.path_exists = true) (hf2 : fenv.checkblk 0 ≠ fs_type)
    (hf3 : fenv.which_mkfs = true) (hf4 : fenv.test = true)
    (hp1 : penv.db_exists = false) (hp2 : penv.test = true)
    (ha1 : aenv.db_exists = true) (ha2 : aenv.test = true) :
    (∃ out, tuned name kwargs tenv = Except.ok out ∧
       out.ret.result = Option.none ∧ out.tune_called = false) ∧
    ((formatted name fs_type fenv).1.result = Option.none ∧
     (formatted name fs_type fenv).2 = false) ∧
    ((present name containment options penv).ret.result = Option.none ∧
     (present name containment options penv).create_call = Option.none) ∧
    ((absent name aenv).ret.result = Option.none ∧
     (absent name aenv).remove_called = false) := by
  refine ⟨⟨{ ret := { changes := [],
                      comment := "Changes to " ++ name ++ " will be applied ",
                      name := name, result := Option.none },
             tune_called := false }, ?_, rfl, rfl⟩, ?_, ?_, ?_⟩ <;>
    simp [tuned, formatted, present, absent, ht1, ht2, hf1, hf2, hf3, hf4,
      hp1, hp2, ha1, ha2]

/-- Witness for C2 (amended) at concrete dry-run inputs. -/
theorem C2_dry_run_no_apply_witness :
    (∃ out, tuned "/dev/sda" [("read-ahead", Val.int 8)]
        ⟨true, true, Val.dict [], Val.dict []⟩ = Except.ok out ∧
       out.ret.result = Option.none ∧ out.tune_called = false) ∧
    ((formatted "/dev/sda" "xfs" ⟨true, true, true, fun _ => "ext4"⟩).1.result = Option.none ∧
     (formatted "/dev/sda" "xfs" ⟨true, true, true, fun _ => "ext4"⟩).2 = false) ∧
    ((present "db" "NONE" Val.none ⟨false, true, Val.bool true⟩).ret.result = Option.none ∧
     (present "db" "NONE" Val.none ⟨false, true, Val.bool true⟩).create_call = Option.none) ∧
    ((absent "db" ⟨true, true, Val.bool true⟩).ret.result = Option.none ∧
     (absent "db" ⟨true, true, Val.bool true⟩).remove_called = false) :=
  C2_dry_run_no_apply "/dev/sda" "NONE" "xfs" Val.none
    [("read-ahead", Val.int 8)]
    ⟨true, true, Val.dict [], Val.dict []⟩ ⟨true, true, true, fun _ => "ext4"⟩
    ⟨false, true, Val.bool true⟩ ⟨true, true, Val.bool true⟩
    rfl rfl rfl (by decide) rfl rfl rfl rfl rfl rfl

/-- When no declared option key is in `kwarg_map`, the changeset loop of
`blockdev.tuned` never subscripts `current`/`changes` and returns its
accumulator. -/
theorem tunedLoop_unmapped (current changes : Val)
    (kwargs : List (String × Val)) (acc : List (String × String))
    (h : ∀ kv ∈ kwargs, kwarg_map.find? (fun m => m.1 = kv.1) = Option.none) :
    tunedLoop current changes kwargs acc = Except.ok acc := by
  induction kwargs with
  | nil => rfl
  | cons kv rest ih =>
    have hkv := h kv (by simp)
    simp only [tunedLoop, hkv, Option.map_none']
    exact ih (fun kv' hkv' => h kv' (by simp [hkv']))

/-- When no re-check ever reports the declared filesystem type, the
bounded retry loop of `blockdev.formatted` fails. -/
theorem formatWait_never (fs_type : String) (chk : Nat → String)
    (h : ∀ i, chk i ≠ fs_type) :
    ∀ i n, formatWait fs_type chk i n = false := by
  intro i n
  induction n generalizing i with
  | zero => rfl
  | succ n ih =>
    simp only [formatWait, h i, if_false]
    by_cases he : chk i = ""
    · simp [he, ih]
    · simp [he]

/-- C3 counterexample: with declared option `read-ahead` and `disk.tune`
returning the falsy `{}`, `blockdev.tuned` does not return a
`result=false` dict — the changeset loop subscripts the falsy tune
result and raises an uncaught exception (modelled as `Except.error`). -/
theorem C3_apply_failure_counterexample :
    tuned "/dev/sda" [("read-ahead", Val.int 256)]
      { is_blkdev := true, test := false,
        dump := Val.dict [("getra", Val.str "256")], tune := Val.dict [] }
      = Except.error "subscript failed: getra" := rfl

/-- C3 (amended): apply failures are surfaced as `result=false` with an
explanatory comment rather than raised — `mssql_database.present` when
`mssql.db_create` returns anything other than `True`,
`mssql_database.absent` when `mssql.db_remove` is falsy,
`blockdev.formatted` when no post-format re-check observes the declared
type, and `blockdev.tuned` when `disk.tune` is falsy *provided no
declared option key is in the tuning map* (with such a key the loop
subscripts the falsy tune result and raises instead). -/
theorem C3_apply_failure_reported
    (name containment fs_type : String) (options : Val)
    (kwargs : List (String × Val))
    (penv : PresentEnv) (aenv : AbsentEnv) (tenv : TunedEnv) (fenv : FormattedEnv)
    (hp1 : penv.db_exists = false) (hp2 : penv.test = false)
    (hp3 : isPyTrue penv.db_create = false)
    (ha1 : aenv.db_exists = true) (ha2 : aenv.test = false)
    (ha3 : truthy aenv.db_remove = false)
    (ht1 : tenv.is_blkdev = true) (ht2 : tenv.test = false)
    (ht3 : truthy tenv.tune = false)
    (ht4 : ∀ kv ∈ kwargs, kwarg_map.find? (fun m => m.1 = kv.1) = Option.none)
    (hf1 : fenv.path_exists = true) (hf2 : fenv.checkblk 0 ≠ fs_type)
    (hf3 : fenv.which_mkfs = true) (hf4 : fenv.test = false)
    (hf5 : ∀ i, fenv.checkblk i ≠ fs_type) :
    ((present name containment options penv).ret.result = some false ∧
     (present name containment options penv).ret.comment =
       "Database " ++ name ++ " failed to be created: " ++ pyStr penv.db_create) ∧
    ((absent name aenv).ret.result = some false ∧
     (absent name aenv).ret.comment = "Database " ++ name ++ " failed to be removed") ∧
    (tuned name kwargs tenv = Except.ok
      { ret := { changes := [],
                 comment := "Failed to modify block device " ++ name,
                 name := name, result := some false },
        tune_called := true }) ∧
    ((formatted name fs_type fenv).1.result = some false ∧
     (formatted name fs_type fenv).1.comment = "Failed to format " ++ name) := by
  refine ⟨?_, ?_, ?_, ?_⟩
  · constructor <;> simp [present, hp1, hp2, hp3]
  · constructor <;> simp [absent, ha1, ha2, ha3]
  · simp [tuned, ht1, ht2, ht3, tunedLoop_unmapped _ _ _ _ ht4]
  · have hw := formatWait_never fs_type fenv.checkblk hf5 1 10
    constructor <;> simp [formatted, hf1, hf2, hf3, hf4, hw]

/-- Witness for C3 (amended): a failing `db_create` result, a falsy
`db_remove`, a falsy `disk.tune` with an unmapped option key, and
re-checks that never observe the declared type. -/
theorem C3_apply_failure_reported_witness :
    ((present "db" "NONE" Val.none ⟨false, false, Val.str "err"⟩).ret.result = some false ∧
     (present "db" "NONE" Val.none ⟨false, false, Val.str "err"⟩).ret.comment =
       "Database " ++ "db" ++ " failed to be created: " ++ pyStr (Val.str "err")) ∧
    ((absent "db" ⟨true, false, Val.bool false⟩).ret.result = some false ∧
     (absent "db" ⟨true, false, Val.bool false⟩).ret.comment =
       "Database " ++ "db" ++ " failed to be removed") ∧
    (tuned "db" [("foo", Val.int 1)]
        ⟨true, false, Val.dict [], Val.dict []⟩ = Except.ok
      { ret := { changes := [],
                 comment := "Failed to modify block device " ++ "db",
                 name := "db", result := some false },
        tune_called := true }) ∧
    ((formatted "db" "xfs" ⟨true, true, false, fun _ => "ext4"⟩).1.result = some false ∧
     (formatted "db" "xfs" ⟨true, true, false, fun _ => "ext4"⟩).1.comment =
       "Failed to format " ++ "db") :=
  C3_apply_failure_reported "db" "NONE" "xfs" Val.none [("foo", Val.int 1)]
    ⟨false, false, Val.str "err"⟩ ⟨true, false, Val.bool false⟩
    ⟨true, false, Val.dict [], Val.dict []⟩ ⟨true, true, false, fun _ => "ext4"⟩
    rfl rfl rfl rfl rfl rfl rfl rfl rfl
    (by intro kv hkv; simp at hkv; simp [hkv, kwarg_map])
    rfl (by decide) rfl rfl (by intro i; show "ext4" ≠ "xfs"; decide)

/-- Truthiness of an embedded bool. -/
theorem truthy_bool (b : Bool) : truthy (Val.bool b) = b := rfl

/-- `pyNot` on an embedded bool is boolean negation. -/
theorem pyNot_bool (b : Bool) : pyNot (Val.bool b) = Val.bool (!b) := rfl

/-- Python `==` on strings is string equality. -/
theorem pyEq_str (a b : String) : pyEq (Val.str a) (Val.str b) = (a == b) := by
  simp [pyEq]

/-- C4: in `blockdev.tuned`, for a boolean-valued declared option whose
underlying switch reads the external representations `"1"`/`"0"`, the
comparison and the reported change treat both the current and the
post-tune value through the same normalization `== "1"` to `True`/
`False`: a change is recorded exactly when the normalized values differ,
and the reported old/new values are the normalized booleans (negated
only for the inverted `read-write` option). -/
theorem C4_bool_normalization
    (name key switch c g : String) (b : Bool) (tenv : TunedEnv)
    (hk : (kwarg_map.find? (fun m => m.1 = key)).map (·.2) = some switch)
    (hc : subscriptStr tenv.dump switch = some (Val.str c))
    (hg : subscriptStr tenv.tune switch = some (Val.str g))
    (hcd : c = "0" ∨ c = "1") (hgd : g = "0" ∨ g = "1")
    (ht1 : tenv.is_blkdev = true) (ht2 : tenv.test = false)
    (ht3 : truthy tenv.tune = true) :
    ((c == "1") = (g == "1") →
      tuned name [(key, Val.bool b)] tenv = Except.ok
        { ret := { changes := [],
                   comment := "Block device " ++ name ++ " already in correct state",
                   name := name, result := some true },
          tune_called := true }) ∧
    ((c == "1") ≠ (g == "1") →
      tuned name [(key, Val.bool b)] tenv = Except.ok
        { ret := { changes := [(key,
              "Changed from " ++
                pyStr (Val.bool (if key = "read-write" then !(c == "1") else (c == "1"))) ++
              " to " ++
                pyStr (Val.bool (if key = "read-write" then !(g == "1") else (g == "1"))))],
                   comment := "Block device " ++ name ++ " successfully modified ",
                   name := name, result := some true },
          tune_called := true }) := by
  constructor <;> intro hcmp <;>
    rcases hcd with rfl | rfl <;> rcases hgd with rfl | rfl <;>
      first
      | (exact absurd hcmp (by decide))
      | (exact absurd rfl hcmp)
      | (simp [tuned, tunedLoop, tunedEntry, setKV, hk, hc, hg, ht1, ht2, ht3,
            pyEq_str, pyNot_bool, truthy_bool, isBoolVal] <;>
          (by_cases hkey : key = "read-write" <;> simp [hkey]))

/-- Witness for C4 at a concrete input: `read-only=True` declared, the
underlying `getro` flag moving from `"0"` to `"1"`. -/
theorem C4_bool_normalization_witness :
    tuned "/dev/sda" [("read-only", Val.bool true)]
      ⟨true, false, Val.dict [("getro", Val.str "0")], Val.dict [("getro", Val.str "1")]⟩
      = Except.ok
        { ret := { changes := [("read-only",
              "Changed from " ++
                pyStr (Val.bool (if "read-only" = "read-write" then !("0" == "1") else ("0" == "1"))) ++
              " to " ++
                pyStr (Val.bool (if "read-only" = "read-write" then !("1" == "1") else ("1" == "1"))))],
                   comment := "Block device " ++ "/dev/sda" ++ " successfully modified ",
                   name := "/dev/sda", result := some true },
          tune_called := true } :=
  (C4_bool_normalization "/dev/sda" "read-only" "getro" "0" "1" true
    ⟨true, false, Val.dict [("getro", Val.str "0")], Val.dict [("getro", Val.str "1")]⟩
    rfl rfl rfl (Or.inl rfl) (Or.inr rfl) rfl rfl rfl).2 (by decide)

/-- C5: in `blockdev.tuned`, declaring `read-write=True` while the
underlying `getro` flag reads `"0"` both before and after the tune call
yields no entry in the changes mapping; and when the flag does change,
the reported old/new values for `read-write` are the negations of the
normalized underlying read-only values. -/
theorem C5_read_write_negation
    (name c g : String) (tenv : TunedEnv)
    (hc : subscriptStr tenv.dump "getro" = some (Val.str c))
    (hg : subscriptStr tenv.tune "getro" = some (Val.str g))
    (hcd : c = "0" ∨ c = "1") (hgd : g = "0" ∨ g = "1")
    (ht1 : tenv.is_blkdev = true) (ht2 : tenv.test = false)
    (ht3 : truthy tenv.tune = true) :
    (c = "0" → g = "0" →
      tuned name [("read-write", Val.bool true)] tenv = Except.ok
        { ret := { changes := [],
                   comment := "Block device " ++ name ++ " already in correct state",
                   name := name, result := some true },
          tune_called := true }) ∧
    (c ≠ g →
      tuned name [("read-write", Val.bool true)] tenv = Except.ok
        { ret := { changes := [("read-write",
              "Changed from " ++ pyStr (Val.bool (!(c == "1"))) ++
              " to " ++ pyStr (Val.bool (!(g == "1"))))],
                   comment := "Block device " ++ name ++ " successfully modified ",
                   name := name, result := some true },
          tune_called := true }) := by
  constructor
  · rintro rfl rfl
    simp [tuned, tunedLoop, tunedEntry, setKV, hc, hg, ht1, ht2, ht3,
      pyEq_str, pyNot_bool, truthy_bool, isBoolVal, kwarg_map]
  · intro hne
    rcases hcd with rfl | rfl <;> rcases hgd with rfl | rfl <;>
      first
      | (exact absurd rfl hne)
      | (simp [tuned, tunedLoop, tunedEntry, setKV, hc, hg, ht1, ht2, ht3,
          pyEq_str, pyNot_bool, truthy_bool, isBoolVal, kwarg_map])

/-- Witness for C5 at a concrete input: `read-write=True` declared with
`getro` staying `"0"` reports no change. -/
theorem C5_read_write_negation_witness :
    tuned "/dev/sda" [("read-write", Val.bool true)]
      ⟨true, false, Val.dict [("getro", Val.str "0")], Val.dict [("getro", Val.str "0")]⟩
      = Except.ok
        { ret := { changes := [],
                   comment := "Block device " ++ "/dev/sda" ++ " already in correct state",
                   name := "/dev/sda", result := some true },
          tune_called := true } :=
  (C5_read_write_negation "/dev/sda" "0" "0"
    ⟨true, false, Val.dict [("getro", Val.str "0")], Val.dict [("getro", Val.str "0")]⟩
    rfl rfl (Or.inl rfl) (Or.inl rfl) rfl rfl rfl).1 rfl rfl

/-- Truthiness of the embedded `None`. -/
theorem truthy_none : truthy Val.none = false := rfl

/-- `throw` in the `Except` monad is `Except.error`. -/
theorem except_throw {α : Type} (e : String) :
    (throw e : Except String α) = Except.error e := rfl

/-- `pure` in the `Except` monad is `Except.ok`. -/
theorem except_pure {α : Type} (a : α) :
    (pure a : Except String α) = Except.ok a := rfl

/-- Binding an error short-circuits. -/
theorem except_error_bind {α β : Type} (e : String)
    (f : α → Except String β) : (Except.error e >>= f) = Except.error e := rfl

/-- Binding a success applies the continuation. -/
theorem except_ok_bind {α β : Type} (a : α) (f : α → Except String β) :
    (Except.ok a >>= f) = f a := rfl

/-- Mapping over an error short-circuits. -/
theorem except_map_error {α β : Type} (e : String) (f : α → β) :
    (f <$> (Except.error e : Except String α)) = Except.error e := rfl

/-- Mapping over a success applies the function. -/
theorem except_map_ok {α β : Type} (a : α) (f : α → β) :
    (f <$> (Except.ok a : Except String α)) = Except.ok (f a) := rfl

/-- C6 counterexample: `mattermost.post_message` with a missing (empty)
message does not raise before the external call — it only logs and still
issues the HTTP query, here with the empty message wrapped in the
code-block delimiters. -/
theorem C6_missing_message_counterexample :
    post_message (Val.str "") Val.none Val.none Val.none Val.none
      { hook := Val.str "hook123", hook2 := Val.none,
        api_url := Val.str "https://example.com", api_url2 := Val.none,
        channel := Val.none, channel2 := Val.none,
        username := Val.none, username2 := Val.none } (Val.str "ok")
      = Except.ok
          { call := { api_url := Val.str "https://example.com",
                      hook := Val.str "hook123",
                      payload := [("text", Val.str "``````")] },
            result := true } := rfl

/-- C6 (amended): `cimc.create_user` raises a descriptive error before
any proxy call when any of `uid`/`username`/`password`/`priv` is
missing, and `cimc.set_logging_levels` does so for a severity outside
the eight allowed levels; `mattermost.post_message`, however, only logs
a missing (falsy) message and still issues the HTTP query. -/
theorem C6_validation_before_external_call
    (uid username password priv remote locl channel uname api_url hook : Val)
    (cfg : MmConfig) (qres : Val) :
    (truthy uid = false →
       create_user uid username password priv =
         Except.error "The user ID must be specified.") ∧
    (truthy uid = true → truthy username = false →
       create_user uid username password priv =
         Except.error "The username must be specified.") ∧
    (truthy uid = true → truthy username = true → truthy password = false →
       create_user uid username password priv =
         Except.error "The password must be specified.") ∧
    (truthy uid = true → truthy username = true → truthy password = true →
     truthy priv = false →
       create_user uid username password priv =
         Except.error "The privilege level must be specified.") ∧
    (truthy remote = true →
     logging_options.any (fun o => pyEq remote (Val.str o)) = false →
       set_logging_levels remote locl =
         Except.error "Remote Severity option is not valid.") ∧
    (truthy remote = false → truthy locl = true →
     logging_options.any (fun o => pyEq locl (Val.str o)) = false →
       set_logging_levels remote locl =
         Except.error "Local Severity option is not valid.") ∧
    (truthy api_url = true → truthy hook = true →
       ∃ out, post_message (Val.str "") channel uname api_url hook cfg qres =
         Except.ok out) := by
  refine ⟨?_, ?_, ?_, ?_, ?_, ?_, ?_⟩
  · intro h1; simp [create_user, h1]
  · intro h1 h2; simp [create_user, h1, h2]
  · intro h1 h2 h3; simp [create_user, h1, h2, h3]
  · intro h1 h2 h3 h4; simp [create_user, h1, h2, h3, h4]
  · intro h1 h2
    simp [set_logging_levels, h1, h2, except_throw, except_error_bind,
      except_map_error]
  · intro h1 h2 h3
    simp [set_logging_levels, h1, h2, h3, except_throw, except_pure,
      except_ok_bind, except_error_bind, except_map_error]
  · intro h1 h2
    simp [post_message, h1, h2, except_pure, except_ok_bind, except_map_ok]

/-- Witness for C6 (amended) at concrete inputs: a missing user ID, an
invalid remote severity, and an empty message that still produces a
query call. -/
theorem C6_validation_before_external_call_witness :
    (create_user Val.none (Val.str "u") (Val.str "p") (Val.str "admin") =
       Except.error "The user ID must be specified.") ∧
    (set_logging_levels (Val.str "chatty") Val.none =
       Except.error "Remote Severity option is not valid.") ∧
    (∃ out, post_message (Val.str "") Val.none Val.none
        (Val.str "https://example.com") (Val.str "hook123")
        { hook := Val.none, hook2 := Val.none, api_url := Val.none,
          api_url2 := Val.none, channel := Val.none, channel2 := Val.none,
          username := Val.none, username2 := Val.none } (Val.str "ok") =
      Except.ok out) :=
  ⟨(C6_validation_before_external_call Val.none (Val.str "u") (Val.str "p")
      (Val.str "admin") (Val.str "chatty") Val.none Val.none Val.none
      (Val.str "https://example.com") (Val.str "hook123")
      { hook := Val.none, hook2 := Val.none, api_url := Val.none,
        api_url2 := Val.none, channel := Val.none, channel2 := Val.none,
        username := Val.none, username2 := Val.none } (Val.str "ok")).1 rfl,
   (C6_validation_before_external_call Val.none (Val.str "u") (Val.str "p")
      (Val.str "admin") (Val.str "chatty") Val.none Val.none Val.none
      (Val.str "https://example.com") (Val.str "hook123")
      { hook := Val.none, hook2 := Val.none, api_url := Val.none,
        api_url2 := Val.none, channel := Val.none, channel2 := Val.none,
        username := Val.none, username2 := Val.none } (Val.str "ok")).2.2.2.2.1
      rfl (by decide),
   (C6_validation_before_external_call Val.none (Val.str "u") (Val.str "p")
      (Val.str "admin") (Val.str "chatty") Val.none Val.none Val.none
      (Val.str "https://example.com") (Val.str "hook123")
      { hook := Val.none, hook2 := Val.none, api_url := Val.none,
        api_url2 := Val.none, channel := Val.none, channel2 := Val.none,
        username := Val.none, username2 := Val.none } (Val.str "ok")).2.2.2.2.2.2
      rfl rfl⟩

/-- C7: `cimc.activate_backup_image` with no arguments submits exactly
the `adminState='trigger' image='backup' resetOnActivate='no'` payload
for the `sys/rack-unit-1/mgmt/fw-boot-def/bootunit-combined` object
path, and with `reset=True` the payload carries
`resetOnActivate='yes'` instead. -/
theorem C7_activate_backup_image_payload :
    activate_backup_image (Val.bool false) =
      { dn := "sys/rack-unit-1/mgmt/fw-boot-def/bootunit-combined",
        inconfig := "<firmwareBootUnit dn='sys/rack-unit-1/mgmt/fw-boot-def/bootunit-combined'\n    adminState='trigger' image='backup' resetOnActivate='no' />" } ∧
    activate_backup_image (Val.bool true) =
      { dn := "sys/rack-unit-1/mgmt/fw-boot-def/bootunit-combined",
        inconfig := "<firmwareBootUnit dn='sys/rack-unit-1/mgmt/fw-boot-def/bootunit-combined'\n    adminState='trigger' image='backup' resetOnActivate='yes' />" } :=
  ⟨rfl, rfl⟩

/-- C8: `mattermost.post_message` with a message and configured
hook/api_url but neither channel nor username (passed or configured)
sends a payload whose only key is `text`, holding the message wrapped in
triple-backtick code-block delimiters on both sides, and returns the
boolean coercion of the query result. -/
theorem C8_post_message_payload (m : String) (cfg : MmConfig) (qres : Val)
    (h1 : truthy cfg.api_url = true) (h2 : truthy cfg.hook = true)
    (h3 : cfg.channel = Val.none) (h4 : cfg.channel2 = Val.none)
    (h5 : cfg.username = Val.none) (h6 : cfg.username2 = Val.none) :
    post_message (Val.str m) Val.none Val.none Val.none Val.none cfg qres =
      Except.ok
        { call := { api_url := cfg.api_url, hook := cfg.hook,
                    payload := [("text", Val.str ("```" ++ m ++ "```"))] },
          result := truthy qres } := by
  simp [post_message, _get_api_url, _get_hook, _get_channel, _get_username,
    pyOr, h1, h2, h3, h4, h5, h6, truthy_none, except_pure, except_ok_bind,
    except_map_ok]

/-- Witness for C8 at a concrete input. -/
theorem C8_post_message_payload_witness :
    post_message (Val.str "Build is done") Val.none Val.none Val.none Val.none
      { hook := Val.str "hook123", hook2 := Val.none,
        api_url := Val.str "https://example.com", api_url2 := Val.none,
        channel := Val.none, channel2 := Val.none,
        username := Val.none, username2 := Val.none } (Val.str "ok")
    = Except.ok
        { call := { api_url := Val.str "https://example.com",
                    hook := Val.str "hook123",
                    payload := [("text", Val.str ("```" ++ "Build is done" ++ "```"))] },
          result := true } :=
  C8_post_message_payload "Build is done"
    { hook := Val.str "hook123", hook2 := Val.none,
      api_url := Val.str "https://example.com", api_url2 := Val.none,
      channel := Val.none, channel2 := Val.none,
      username := Val.none, username2 := Val.none } (Val.str "ok")
    (by decide) (by decide) rfl rfl rfl rfl

/-- C9: `cimc.get_hostname` never propagates an exception — for every
proxy response shape it either returns the value found at
`outConfigs.mgmtIf[0].hostname` or, when the extraction chain fails
anywhere, the fixed string `"Unable to retrieve hostname"`. -/
theorem C9_get_hostname_total_fallback (resp : Val) :
    (∃ v, extractHostname resp = some v ∧ get_hostname resp = v) ∨
    (extractHostname resp = Option.none ∧
     get_hostname resp = Val.str "Unable to retrieve hostname") := by
  cases h : extractHostname resp with
  | none => exact Or.inr ⟨rfl, by simp [get_hostname, h]⟩
  | some v => exact Or.inl ⟨v, rfl, by simp [get_hostname, h]⟩

/-- C10 counterexample: `_normalize_options` does not always return a
list of strings — a list whose first element is a string is returned
unchanged even when a later element is not a string. -/
theorem C10_normalize_counterexample :
    _normalize_options (Val.list [Val.str "x", Val.int 5]) =
      Val.list [Val.str "x", Val.int 5] ∧
    (listElems (_normalize_options (Val.list [Val.str "x", Val.int 5]))).all
      isStrVal = false := ⟨rfl, rfl⟩

/-- Every element of `_normalize_options` applied to a dict is a
string. -/
theorem normalize_dict_all_str (kvs : List (String × Val)) :
    (listElems (_normalize_options (Val.dict kvs))).all isStrVal = true := by
  induction kvs with
  | nil => rfl
  | cons kv rest ih =>
    simp [_normalize_options, listElems, isStrVal] at ih ⊢
    exact ih

/-- Every element of the flattening of a list of dicts is a string. -/
theorem normFlatten_dicts_all_str (ds : List (List (String × Val))) :
    ((ds.map Val.dict).flatMap
        (fun d => listElems (_normalize_options d))).all isStrVal = true := by
  induction ds with
  | nil => rfl
  | cons kvs rest ih =>
    have hd := normalize_dict_all_str kvs
    simp [List.all_append, hd, ih]

/-- C10 (amended): `_normalize_options` always returns a list; a dict
maps to its `"key=value"` strings, a list that is empty or whose first
element is a string is returned unchanged (even when later elements are
not strings), a list of dicts flattens to the `"key=value"` strings of
each dict (all strings), and every non-list/non-dict input (`None`, a
plain string, a number, a bool) yields the empty list; hence
`mssql_database.present` passes the normalized list as
`new_database_options` to the `db_create` call. -/
theorem C10_normalize_options_shape :
    (∀ v : Val, ∃ xs : List Val, _normalize_options v = Val.list xs) ∧
    (∀ kvs : List (String × Val),
      _normalize_options (Val.dict kvs) =
        Val.list (kvs.map (fun kv => Val.str (kv.1 ++ "=" ++ pyStr kv.2))) ∧
      (listElems (_normalize_options (Val.dict kvs))).all isStrVal = true) ∧
    (_normalize_options (Val.list []) = Val.list [] ∧
     ∀ (st : String) (xs : List Val),
       _normalize_options (Val.list (Val.str st :: xs)) =
         Val.list (Val.str st :: xs)) ∧
    (∀ (kvs : List (String × Val)) (ds : List (List (String × Val))),
      (listElems (_normalize_options
          (Val.list (Val.dict kvs :: ds.map Val.dict)))).all isStrVal = true) ∧
    (_normalize_options Val.none = Val.list [] ∧
     (∀ st : String, _normalize_options (Val.str st) = Val.list []) ∧
     (∀ n : Int, _normalize_options (Val.int n) = Val.list []) ∧
     (∀ b : Bool, _normalize_options (Val.bool b) = Val.list [])) ∧
    (∀ (name containment : String) (options : Val) (penv : PresentEnv),
      penv.db_exists = false → penv.test = false →
      (present name containment options penv).create_call =
        some (containment, _normalize_options options)) := by
  refine ⟨?_, ?_, ⟨rfl, fun st xs => rfl⟩, ?_, ⟨rfl, fun st => rfl, fun n => rfl, fun b => rfl⟩, ?_⟩
  · intro v
    rcases v with _ | b | n | st | xs | kvs
    · exact ⟨[], rfl⟩
    · exact ⟨[], rfl⟩
    · exact ⟨[], rfl⟩
    · exact ⟨[], rfl⟩
    · rcases xs with _ | ⟨x, rest⟩
      · exact ⟨[], rfl⟩
      · rcases x with _ | b | n | st | ys | kvs
        · exact ⟨[], rfl⟩
        · exact ⟨[], rfl⟩
        · exact ⟨[], rfl⟩
        · exact ⟨_, rfl⟩
        · exact ⟨[], rfl⟩
        · exact ⟨_, rfl⟩
    · exact ⟨_, rfl⟩
  · intro kvs
    exact ⟨rfl, normalize_dict_all_str kvs⟩
  · intro kvs ds
    have h := normFlatten_dicts_all_str (kvs :: ds)
    have hfl : ∀ es : List Val, normFlatten es =
        es.flatMap (fun d => listElems (_normalize_options d)) := by
      intro es
      induction es with
      | nil => rfl
      | cons e rest ih => simp [normFlatten, ih]
    simpa [_normalize_options, listElems, hfl] using h
  · intro name containment options penv hp1 hp2
    by_cases hc : isPyTrue penv.db_create = true <;>
      simp [present, hp1, hp2, hc]

/-- Witness for C10 (amended): `present` forwards the normalized options
of a concrete dict to `db_create`. -/
theorem C10_normalize_options_shape_witness :
    (present "db" "NONE" (Val.dict [("a", Val.int 1)])
        ⟨false, false, Val.bool true⟩).create_call =
      some ("NONE", _normalize_options (Val.dict [("a", Val.int 1)])) :=
  C10_normalize_options_shape.2.2.2.2.2 "db" "NONE"
    (Val.dict [("a", Val.int 1)]) ⟨false, false, Val.bool true⟩ rfl rfl

end Salt
